import Mathlib

/-!
Verification development for the DART disclosure ingestion producer
(`src/producer`): a shallow embedding of the in-memory processing state
(`main.py`), the content normalizer (`services/content_normalizer.py`),
the storage dedup check (`services/storage_client.py`), the DART API
status dispatch (`main.py` / `services/dart_api_client.py`) and the
per-document processing pipeline (`main.py`), together with theorems
about the behaviour of each part.
-/

namespace DartIngestion

/-- A byte string (Python `bytes`), modelled as the list of its byte values. -/
abbrev ByteSeq := List Nat

/-- In-memory processing state (`ProcessingState`, src/producer/main.py
lines 65-127).  The two sets are modelled as Boolean membership functions
and the `failed_attempts` dict as a partial map from identifier to count. -/
structure ProcessingState where
  processed : String → Bool
  failed_attempts : String → Option Nat
  permanently_failed : String → Bool
  success_count : Nat
  skip_count : Nat
  error_count : Nat

/-- The state a fresh process starts from: all sets empty, all counters zero. -/
def initialState : ProcessingState :=
  ⟨fun _ => false, fun _ => none, fun _ => false, 0, 0, 0⟩

/-- `ProcessingState.is_processed` (main.py 82-84). -/
def is_processed (s : ProcessingState) (rcept_no : String) : Bool :=
  s.processed rcept_no || s.permanently_failed rcept_no

/-- `ProcessingState.mark_processed` (main.py 86-93): add the identifier to
`processed`, bump `success_count`, and drop any pending failure counter
(Python deletes the key only when present; the resulting map is the same). -/
def mark_processed (s : ProcessingState) (rcept_no : String) : ProcessingState :=
  { s with
    processed := fun x => if x = rcept_no then true else s.processed x
    success_count := s.success_count + 1
    failed_attempts := fun x => if x = rcept_no then none else s.failed_attempts x }

/-- `ProcessingState.mark_skipped` (main.py 95-98). -/
def mark_skipped (s : ProcessingState) (rcept_no : String) : ProcessingState :=
  { s with
    processed := fun x => if x = rcept_no then true else s.processed x
    skip_count := s.skip_count + 1 }

/-- `ProcessingState.record_failure` (main.py 100-116): increment the failure
counter and the error counter; once the counter reaches `max_fail`, move the
identifier into `permanently_failed` and `processed`, delete the counter and
return `true`. -/
def record_failure (s : ProcessingState) (rcept_no : String) (max_fail : Nat) :
    ProcessingState × Bool :=
  let n := (s.failed_attempts rcept_no).getD 0 + 1
  let s1 := { s with
    failed_attempts := fun x => if x = rcept_no then some n else s.failed_attempts x
    error_count := s.error_count + 1 }
  if max_fail ≤ n then
    ({ s1 with
        permanently_failed := fun x => if x = rcept_no then true else s1.permanently_failed x
        processed := fun x => if x = rcept_no then true else s1.processed x
        failed_attempts := fun x => if x = rcept_no then none else s1.failed_attempts x },
      true)
  else
    (s1, false)

/-- `k` successive `record_failure` calls for the same identifier. -/
def record_failure_iter (s : ProcessingState) (rcept_no : String) (max_fail : Nat) :
    Nat → ProcessingState
  | 0 => s
  | k + 1 => (record_failure (record_failure_iter s rcept_no max_fail k) rcept_no max_fail).1

lemma record_failure_iter_below (s : ProcessingState) (r : String) (mf : Nat)
    (hp : s.processed r = false) (hq : s.permanently_failed r = false)
    (hf : s.failed_attempts r = none) :
    ∀ k, k < mf →
      (record_failure_iter s r mf k).processed r = false ∧
      (record_failure_iter s r mf k).permanently_failed r = false ∧
      (record_failure_iter s r mf k).failed_attempts r = if k = 0 then none else some k := by
  intro k
  induction k with
  | zero =>
    intro _
    exact ⟨hp, hq, by simp [record_failure_iter, hf]⟩
  | succ k ih =>
    intro hk
    obtain ⟨h1, h2, h3⟩ := ih (Nat.lt_of_succ_lt hk)
    have hget : ((record_failure_iter s r mf k).failed_attempts r).getD 0 = k := by
      rw [h3]
      by_cases h0 : k = 0 <;> simp [h0]
    have hns : ¬ mf ≤ k + 1 := by omega
    refine ⟨?_, ?_, ?_⟩ <;>
      simp [record_failure_iter, record_failure, hget, hns, h1, h2]

/-- C3: for a fresh identifier and any `max_fail ≥ 1`, the first
`max_fail - 1` calls to `record_failure` each return `false` and leave the
identifier retryable (not processed, not permanently failed, counter equal to
the number of calls made), while the `max_fail`-th call returns `true`, adds
the identifier to both `permanently_failed` and `processed`, and deletes its
failure counter. -/
theorem record_failure_threshold (s : ProcessingState) (r : String) (mf : Nat)
    (hmf : 1 ≤ mf)
    (hp : s.processed r = false) (hq : s.permanently_failed r = false)
    (hf : s.failed_attempts r = none) :
    is_processed (record_failure_iter s r mf (mf - 1)) r = false ∧
    (record_failure_iter s r mf (mf - 1)).permanently_failed r = false ∧
    ((record_failure_iter s r mf (mf - 1)).failed_attempts r).getD 0 = mf - 1 ∧
    (∀ k, k < mf - 1 → (record_failure (record_failure_iter s r mf k) r mf).2 = false) ∧
    (record_failure (record_failure_iter s r mf (mf - 1)) r mf).2 = true ∧
    (record_failure (record_failure_iter s r mf (mf - 1)) r mf).1.permanently_failed r = true ∧
    (record_failure (record_failure_iter s r mf (mf - 1)) r mf).1.processed r = true ∧
    (record_failure (record_failure_iter s r mf (mf - 1)) r mf).1.failed_attempts r = none := by
  obtain ⟨h1, h2, h3⟩ :=
    record_failure_iter_below s r mf hp hq hf (mf - 1) (by omega)
  have hget : ((record_failure_iter s r mf (mf - 1)).failed_attempts r).getD 0 = mf - 1 := by
    rw [h3]
    by_cases h0 : mf - 1 = 0 <;> simp [h0]
  have hpromote : mf ≤ (mf - 1) + 1 := by omega
  refine ⟨by simp [is_processed, h1, h2], h2, hget, ?_, ?_, ?_, ?_, ?_⟩
  · intro k hk
    obtain ⟨_, _, hk3⟩ :=
      record_failure_iter_below s r mf hp hq hf k (by omega)
    have hgk : ((record_failure_iter s r mf k).failed_attempts r).getD 0 = k := by
      rw [hk3]
      by_cases h0 : k = 0 <;> simp [h0]
    have hnk : ¬ mf ≤ k + 1 := by omega
    simp [record_failure, hgk, hnk]
  all_goals simp [record_failure, hget, hpromote]

/-- Witness for `record_failure_threshold` at `max_fail = 3` on a fresh state. -/
theorem record_failure_threshold_witness :
    is_processed (record_failure_iter initialState "a" 3 2) "a" = false ∧
    ((record_failure_iter initialState "a" 3 2).failed_attempts "a").getD 0 = 2 ∧
    (record_failure (record_failure_iter initialState "a" 3 2) "a" 3).2 = true := by
  have h := record_failure_threshold initialState "a" 3 (by decide) rfl rfl rfl
  exact ⟨h.1, h.2.2.1, h.2.2.2.2.1⟩

/-- The three state-mutating operations of `ProcessingState`. -/
inductive StateOp where
  | markProcessed (rcept_no : String)
  | markSkipped (rcept_no : String)
  | recordFailure (rcept_no : String) (max_fail : Nat)

/-- Apply a single operation to the state. -/
def apply_op (s : ProcessingState) : StateOp → ProcessingState
  | .markProcessed r => mark_processed s r
  | .markSkipped r => mark_skipped s r
  | .recordFailure r mf => (record_failure s r mf).1

/-- Apply a sequence of operations to the state, left to right. -/
def run_ops (s : ProcessingState) : List StateOp → ProcessingState
  | [] => s
  | op :: rest => run_ops (apply_op s op) rest

/-- The state invariants claimed by the spec: permanently-failed identifiers
are also processed, and an identifier with a pending failure counter is never
permanently failed. -/
def StateInv (s : ProcessingState) : Prop :=
  (∀ r, s.permanently_failed r = true → s.processed r = true) ∧
  (∀ r, (s.failed_attempts r).isSome = true → s.permanently_failed r = false)

/-- The guard upheld by the driver (main.py 187-188): a failure is only
recorded for an identifier that is not yet processed. -/
def op_ok (s : ProcessingState) : StateOp → Prop
  | .recordFailure r _ => is_processed s r = false
  | _ => True

/-- A sequence of operations each of which respects `op_ok` in the state it
runs in. -/
def GuardedOps (s : ProcessingState) : List StateOp → Prop
  | [] => True
  | op :: rest => op_ok s op ∧ GuardedOps (apply_op s op) rest

lemma record_failure_point (s : ProcessingState) (r0 : String) (mf : Nat) (x : String) :
    ((record_failure s r0 mf).1.processed x =
      if mf ≤ (s.failed_attempts r0).getD 0 + 1 ∧ x = r0 then true else s.processed x) ∧
    ((record_failure s r0 mf).1.permanently_failed x =
      if mf ≤ (s.failed_attempts r0).getD 0 + 1 ∧ x = r0 then true
      else s.permanently_failed x) ∧
    ((record_failure s r0 mf).1.failed_attempts x =
      if x = r0 then
        (if mf ≤ (s.failed_attempts r0).getD 0 + 1 then none
         else some ((s.failed_attempts r0).getD 0 + 1))
      else s.failed_attempts x) := by
  by_cases hb : mf ≤ (s.failed_attempts r0).getD 0 + 1 <;>
    by_cases hr : x = r0 <;>
      simp [record_failure, hb, hr]

lemma apply_op_mono (s : ProcessingState) (op : StateOp) (r : String) :
    (s.processed r = true → (apply_op s op).processed r = true) ∧
    (s.permanently_failed r = true → (apply_op s op).permanently_failed r = true) := by
  cases op with
  | markProcessed r0 =>
    refine ⟨fun h => ?_, fun h => h⟩
    by_cases hr : r = r0 <;> simp [apply_op, mark_processed, hr, h]
  | markSkipped r0 =>
    refine ⟨fun h => ?_, fun h => h⟩
    by_cases hr : r = r0 <;> simp [apply_op, mark_skipped, hr, h]
  | recordFailure r0 mf =>
    obtain ⟨e1, e2, _⟩ := record_failure_point s r0 mf r
    refine ⟨fun h => ?_, fun h => ?_⟩
    · show (record_failure s r0 mf).1.processed r = true
      rw [e1]
      by_cases hb : mf ≤ (s.failed_attempts r0).getD 0 + 1 ∧ r = r0 <;> simp [hb, h]
    · show (record_failure s r0 mf).1.permanently_failed r = true
      rw [e2]
      by_cases hb : mf ≤ (s.failed_attempts r0).getD 0 + 1 ∧ r = r0 <;> simp [hb, h]

lemma run_ops_mono (s : ProcessingState) (ops : List StateOp) (r : String) :
    (s.processed r = true → (run_ops s ops).processed r = true) ∧
    (s.permanently_failed r = true → (run_ops s ops).permanently_failed r = true) := by
  induction ops generalizing s with
  | nil => exact ⟨fun h => h, fun h => h⟩
  | cons op rest ih =>
    refine ⟨fun h => ?_, fun h => ?_⟩
    · exact (ih (apply_op s op)).1 ((apply_op_mono s op r).1 h)
    · exact (ih (apply_op s op)).2 ((apply_op_mono s op r).2 h)

lemma apply_op_inv (s : ProcessingState) (op : StateOp)
    (hInv : StateInv s) (hok : op_ok s op) : StateInv (apply_op s op) := by
  obtain ⟨hsub, hdis⟩ := hInv
  cases op with
  | markProcessed r0 =>
    refine ⟨fun r h => ?_, fun r h => ?_⟩
    · simp only [apply_op, mark_processed] at h ⊢
      by_cases hr : r = r0
      · simp [hr]
      · simp only [hr, if_neg, ite_false] at h ⊢
        simp [hr, hsub r h]
    · simp only [apply_op, mark_processed] at h ⊢
      by_cases hr : r = r0
      · simp [hr] at h
      · simp [hr] at h
        exact hdis r h
  | markSkipped r0 =>
    refine ⟨fun r h => ?_, fun r h => ?_⟩
    · simp only [apply_op, mark_skipped] at h ⊢
      by_cases hr : r = r0
      · simp [hr]
      · simp [hr] at h ⊢
        exact hsub r h
    · simp only [apply_op, mark_skipped] at h ⊢
      exact hdis r h
  | recordFailure r0 mf =>
    have hok2 : s.processed r0 = false ∧ s.permanently_failed r0 = false := by
      have : is_processed s r0 = false := hok
      simpa [is_processed] using this
    refine ⟨fun r h => ?_, fun r h => ?_⟩
    · obtain ⟨e1, e2, _⟩ := record_failure_point s r0 mf r
      replace h : (record_failure s r0 mf).1.permanently_failed r = true := h
      show (record_failure s r0 mf).1.processed r = true
      rw [e2] at h
      rw [e1]
      by_cases hb : mf ≤ (s.failed_attempts r0).getD 0 + 1 ∧ r = r0
      · simp [hb]
      · simp only [hb, ite_false] at h ⊢
        exact hsub r h
    · obtain ⟨_, e2, e3⟩ := record_failure_point s r0 mf r
      replace h : ((record_failure s r0 mf).1.failed_attempts r).isSome = true := h
      show (record_failure s r0 mf).1.permanently_failed r = false
      rw [e3] at h
      rw [e2]
      by_cases hr : r = r0
      · by_cases hb : mf ≤ (s.failed_attempts r0).getD 0 + 1
        · simp [hr, hb] at h
        · simp [hb, hr]
          exact hr ▸ hok2.2
      · simp only [hr, ite_false] at h
        have hnp : s.permanently_failed r = false := hdis r h
        have : ¬ (mf ≤ (s.failed_attempts r0).getD 0 + 1 ∧ r = r0) := fun hc => hr hc.2
        simp [this, hnp]

lemma run_ops_inv (s : ProcessingState) (ops : List StateOp)
    (hInv : StateInv s) (hg : GuardedOps s ops) : StateInv (run_ops s ops) := by
  induction ops generalizing s with
  | nil => exact hInv
  | cons op rest ih => exact ih (apply_op s op) (apply_op_inv s op hInv hg.1) hg.2

/-- C4 (counterexample): with threshold 2, a third `record_failure` call on an
already permanently-failed identifier re-creates its transient failure
counter, so the sequence breaks the claimed invariant that no identifier is
simultaneously in `failed_attempts` and `permanently_failed`. -/
theorem state_invariant_counterexample :
    StateInv initialState ∧
    ¬ StateInv (run_ops initialState
      [.recordFailure "a" 2, .recordFailure "a" 2, .recordFailure "a" 2]) := by
  constructor
  · exact ⟨fun r h => by simp [initialState] at h, fun r h => by simp [initialState] at h⟩
  · intro h
    exact absurd (h.2 "a" (by decide)) (by decide)

/-- C4 (amended): every sequence of `ProcessingState` operations in which
`record_failure` is only invoked on identifiers not yet processed (the guard
the driver upholds) preserves the invariants `permanentlyFailed ⊆ processed`
and `failureCounts ∩ permanentlyFailed = ∅`; moreover the `processed` and
`permanently_failed` sets only grow under every sequence of operations. -/
theorem state_invariants_preserved (s : ProcessingState) (ops : List StateOp)
    (hInv : StateInv s) :
    (GuardedOps s ops → StateInv (run_ops s ops)) ∧
    (∀ r, s.processed r = true → (run_ops s ops).processed r = true) ∧
    (∀ r, s.permanently_failed r = true → (run_ops s ops).permanently_failed r = true) :=
  ⟨fun hg => run_ops_inv s ops hInv hg,
   fun r => (run_ops_mono s ops r).1,
   fun r => (run_ops_mono s ops r).2⟩

/-- Witness for `state_invariants_preserved` on a concrete guarded sequence. -/
theorem state_invariants_preserved_witness :
    (run_ops (mark_processed initialState "a")
      [.markSkipped "c", .recordFailure "b" 2]).permanently_failed "b" = false ∧
    (run_ops (mark_processed initialState "a")
      [.markSkipped "c", .recordFailure "b" 2]).processed "a" = true := by
  have hInv : StateInv (mark_processed initialState "a") := by
    refine ⟨fun r h => ?_, fun r h => ?_⟩ <;>
      by_cases hr : r = "a" <;>
        simp [mark_processed, initialState, hr] at h ⊢
  have hg : GuardedOps (mark_processed initialState "a")
      [.markSkipped "c", .recordFailure "b" 2] := by
    refine ⟨trivial, ?_, trivial⟩
    show is_processed (apply_op (mark_processed initialState "a") (.markSkipped "c")) "b" = false
    decide
  have h := state_invariants_preserved (mark_processed initialState "a")
    [.markSkipped "c", .recordFailure "b" 2] hInv
  refine ⟨(h.1 hg).2 "b" (by decide), h.2.1 "a" (by decide)⟩

/-- `KIND_PRIORITY` (content_normalizer.py 55): content-kind preference order
inside a ZIP archive. -/
def KIND_PRIORITY : List String := ["html", "xml", "bin"]

/-- A classified ZIP member as produced by `_classify_member`
(content_normalizer.py 398-403): kind, decompressed data, member name. -/
abbrev ZipMember := String × ByteSeq × String

/-- The position of a kind in `KIND_PRIORITY`
(`KIND_PRIORITY.index(kind) if kind in KIND_PRIORITY else len(KIND_PRIORITY)`,
content_normalizer.py 410). -/
def kind_priority_index (kind : String) : Nat :=
  if KIND_PRIORITY.contains kind then KIND_PRIORITY.indexOf kind else KIND_PRIORITY.length

/-- The Python sort key `(kind_priority, -len(data))` of `_pick_best`
(content_normalizer.py 408-411). -/
def sort_key (m : ZipMember) : Nat × Int :=
  (kind_priority_index m.1, -(m.2.1.length : Int))

/-- Strict lexicographic order on sort keys, as Python compares the tuples. -/
def key_lt (a b : Nat × Int) : Prop :=
  a.1 < b.1 ∨ (a.1 = b.1 ∧ a.2 < b.2)

instance (a b : Nat × Int) : Decidable (key_lt a b) := by
  unfold key_lt
  exact inferInstance

lemma key_lt_trans {a b c : Nat × Int} (h1 : key_lt a b) (h2 : key_lt b c) : key_lt a c := by
  obtain ⟨a1, a2⟩ := a
  obtain ⟨b1, b2⟩ := b
  obtain ⟨c1, c2⟩ := c
  unfold key_lt at h1 h2 ⊢
  rcases h1 with h1 | ⟨h1a, h1b⟩ <;> rcases h2 with h2 | ⟨h2a, h2b⟩ <;> omega

lemma key_le_lt_trans {a b c : Nat × Int} (h1 : ¬ key_lt b a) (h2 : key_lt b c) :
    key_lt a c := by
  obtain ⟨a1, a2⟩ := a
  obtain ⟨b1, b2⟩ := b
  obtain ⟨c1, c2⟩ := c
  unfold key_lt at h1 h2 ⊢
  rcases h2 with h2 | ⟨h2a, h2b⟩ <;> omega

/-- `_pick_best` (content_normalizer.py 406-414): the members are sorted by
`(kind priority, -size)` with Python's stable sort and the first element is
taken; the first element of the stable-sorted list is the earliest member
with the least sort key, which this left fold computes on the non-empty list
`m :: ms`. -/
def pick_best (m : ZipMember) (ms : List ZipMember) : ZipMember :=
  ms.foldl (fun best x => if key_lt (sort_key x) (sort_key best) then x else best) m

lemma pick_best_mem (m : ZipMember) (ms : List ZipMember) :
    pick_best m ms ∈ m :: ms := by
  induction ms generalizing m with
  | nil => exact List.mem_singleton.mpr rfl
  | cons y ys ih =>
    have hrec : pick_best m (y :: ys) =
        pick_best (if key_lt (sort_key y) (sort_key m) then y else m) ys := rfl
    rw [hrec]
    by_cases hc : key_lt (sort_key y) (sort_key m)
    · rw [if_pos hc]
      rcases List.mem_cons.mp (ih y) with h1 | h1
      · rw [h1]; simp
      · exact List.mem_cons_of_mem m (List.mem_cons_of_mem y h1)
    · rw [if_neg hc]
      rcases List.mem_cons.mp (ih m) with h1 | h1
      · rw [h1]; simp
      · exact List.mem_cons_of_mem m (List.mem_cons_of_mem y h1)

lemma pick_best_min (m : ZipMember) (ms : List ZipMember) :
    ∀ x ∈ m :: ms, ¬ key_lt (sort_key x) (sort_key (pick_best m ms)) := by
  induction ms generalizing m with
  | nil =>
    intro x hx
    rw [List.mem_singleton] at hx
    subst hx
    show ¬ key_lt (sort_key x) (sort_key x)
    unfold key_lt
    omega
  | cons y ys ih =>
    intro x hx
    have hrec : pick_best m (y :: ys) =
        pick_best (if key_lt (sort_key y) (sort_key m) then y else m) ys := rfl
    set m1 := if key_lt (sort_key y) (sort_key m) then y else m with hm1
    have hihm1 := ih m1 m1 (List.mem_cons_self m1 ys)
    rcases List.mem_cons.mp hx with hxm | hxy
    · subst hxm
      by_cases hc : key_lt (sort_key y) (sort_key x)
      · rw [hrec]
        have hm1x : m1 = y := by simp [hm1, hc]
        intro hlt
        exact hihm1 (key_lt_trans (hm1x ▸ hc) hlt)
      · rw [hrec]
        have hm1x : m1 = x := by simp [hm1, hc]
        exact hm1x ▸ hihm1
    · rcases List.mem_cons.mp hxy with hxy2 | hxys
      · subst hxy2
        rw [hrec]
        by_cases hc : key_lt (sort_key x) (sort_key m)
        · have hm1x : m1 = x := by simp [hm1, hc]
          exact hm1x ▸ hihm1
        · have hm1x : m1 = m := by simp [hm1, hc]
          intro hlt
          exact hihm1 (key_le_lt_trans (hm1x ▸ hc) hlt)
      · rw [hrec]
        exact ih m1 x (List.mem_cons_of_mem m1 hxys)

/-- C7: for every non-empty list of classified ZIP members, `_pick_best`
returns a member of the list whose kind priority (`html` before `xml` before
`bin`) is maximal, with ties inside a kind broken towards larger decompressed
size; in particular, if any member is `html` the selected member is never
`bin`. -/
theorem pick_best_selects_best (m : ZipMember) (ms : List ZipMember) :
    pick_best m ms ∈ m :: ms ∧
    (∀ x ∈ m :: ms,
      kind_priority_index (pick_best m ms).1 ≤ kind_priority_index x.1 ∧
      (kind_priority_index x.1 = kind_priority_index (pick_best m ms).1 →
        x.2.1.length ≤ (pick_best m ms).2.1.length)) ∧
    ((∃ x ∈ m :: ms, x.1 = "html") → (pick_best m ms).1 ≠ "bin") := by
  refine ⟨pick_best_mem m ms, fun x hx => ?_, fun ⟨x, hx, hhtml⟩ hbin => ?_⟩
  · have h := pick_best_min m ms x hx
    simp only [key_lt, sort_key, not_or, not_and, not_lt] at h
    refine ⟨h.1, fun heq => ?_⟩
    have h2 := h.2 heq
    omega
  · have h := pick_best_min m ms x hx
    apply h
    have hx1 : kind_priority_index x.1 = 0 := by rw [hhtml]; decide
    have hp1 : kind_priority_index (pick_best m ms).1 = 2 := by rw [hbin]; decide
    exact Or.inl (by simp [sort_key, hx1, hp1])

/-- Witness for `pick_best_selects_best`: an archive listing a large binary
member before a small html member still selects the html member. -/
theorem pick_best_selects_best_witness :
    (pick_best ("bin", [0, 1, 2, 3, 4, 5], "a.bin") [("html", [60, 62], "b.html")]).1 ≠ "bin" := by
  refine (pick_best_selects_best ("bin", [0, 1, 2, 3, 4, 5], "a.bin")
    [("html", [60, 62], "b.html")]).2.2 ⟨("html", [60, 62], "b.html"), ?_, rfl⟩
  simp

/-- `_KOREAN_ENCODING_PRIORITY` (content_normalizer.py 71-78): the fixed
fallback chain of encodings tried for Korean documents. -/
def KOREAN_ENCODING_PRIORITY : List String :=
  ["utf-8-sig", "utf-8", "cp949", "euc-kr", "iso-8859-1"]

/-- One step of the order-preserving de-duplicating append used by
`_build_encoding_candidates` (content_normalizer.py 251-254). -/
def add_if_absent (candidates : List String) (enc : String) : List String :=
  if candidates.contains enc then candidates else candidates ++ [enc]

/-- `_build_encoding_candidates` (content_normalizer.py 239-260): the
declared encoding first, then the chardet-detected encoding when its
confidence exceeds 0.7, then the fixed Korean fallback chain, then the
detected encoding regardless of confidence, all de-duplicated while
preserving order. -/
def build_encoding_candidates (declared auto : Option String) (auto_conf : Rat) :
    List String :=
  let c0 : List String := match declared with
    | some d => [d]
    | none => []
  let c1 : List String := match auto with
    | some a => if (7 : Rat) / 10 < auto_conf ∧ c0.contains a = false then c0 ++ [a] else c0
    | none => c0
  let c2 := KOREAN_ENCODING_PRIORITY.foldl add_if_absent c1
  match auto with
  | some a => if c2.contains a = false then c2 ++ [a] else c2
  | none => c2

/-- Outcome of one encoding attempt in the loop of `_to_utf8_with_rewrite`
(content_normalizer.py 277-291): `data.decode(enc, errors="strict")`,
re-encode to UTF-8, rewrite of the charset declaration and final strict
verification.  `unicodeError` stands for a `UnicodeDecodeError` or
`UnicodeEncodeError` (caught by the loop, which moves on); `lookupError`
stands for the `LookupError` raised by `bytes.decode` for an encoding name
that is not registered in Python's codec registry, which the `except`
clause does not catch. -/
inductive DecodeOutcome where
  | ok (utf8 : ByteSeq)
  | unicodeError
  | lookupError
deriving DecidableEq

/-- The primitive Python operations that the normalizer orchestrates,
supplied as an environment: content sniffing (`sniff_kind`),
charset-declaration extraction (`_detect_encoding_from_declaration`),
chardet auto-detection (`_detect_encoding_auto`), one strict decode attempt
(see `DecodeOutcome`), the final lossy replacement decode of
content_normalizer.py 300-305 (total, since `errors="replace"` cannot
fail), ZIP member listing and extraction (where `.error` represents the
`BadZipFile` and `ValueError` failures that `_normalize_zip` catches), and
the base-name sanitization `_safe_ascii_name(_get_base_name(...))` (total). -/
structure CodecEnv where
  sniff_kind : ByteSeq → String
  detect_declared : ByteSeq → String → Option String
  detect_auto : ByteSeq → Option String × Rat
  attempt_strict : String → ByteSeq → String → DecodeOutcome
  lossy_replace : ByteSeq → String → ByteSeq
  zip_entries : ByteSeq → Except String (List (String × ByteSeq))
  base_name : String → String

/-- The candidate loop of `_to_utf8_with_rewrite` (content_normalizer.py
277-306): try each candidate in order; the first strict success wins, a
Unicode error moves on to the next candidate, an unregistered encoding name
raises a `LookupError` (modelled as `.error`); once every candidate has
failed, the lossy replacement fallback is used and reported under the
pseudo-encoding name `cp949-fallback`. -/
def try_candidates (env : CodecEnv) (data : ByteSeq) (kind : String) :
    List String → Except String (ByteSeq × String)
  | [] => .ok (env.lossy_replace data kind, "cp949-fallback")
  | enc :: rest =>
    match env.attempt_strict enc data kind with
    | .ok utf8 => .ok (utf8, enc)
    | .unicodeError => try_candidates env data kind rest
    | .lookupError => .error ("unknown encoding: " ++ enc)

/-- `_to_utf8_with_rewrite` (content_normalizer.py 263-306). -/
def to_utf8_with_rewrite (env : CodecEnv) (data : ByteSeq) (kind : String) :
    Except String (ByteSeq × String) :=
  try_candidates env data kind
    (build_encoding_candidates (env.detect_declared data kind)
      (env.detect_auto data).1 (env.detect_auto data).2)

/-- `ZIP_SIG` (content_normalizer.py 53): the bytes of `PK\x03\x04`. -/
def ZIP_SIG : ByteSeq := [80, 75, 3, 4]

/-- `MAX_FILES` (content_normalizer.py 56). -/
def MAX_FILES : Nat := 200

/-- `MAX_TOTAL_UNCOMPRESSED` (content_normalizer.py 57). -/
def MAX_TOTAL_UNCOMPRESSED : Nat := 200 * 1024 * 1024

/-- `_normalize_zip` (content_normalizer.py 417-450), without the log summary
string: open the archive (a `BadZipFile`, an oversized or over-populated
archive, or an empty archive all degrade to returning the original bytes as
`application/octet-stream` with a `.zip` name), classify every member, pick
the best one and convert it according to its kind.  A `LookupError` escaping
`_to_utf8_with_rewrite` is not caught by the
`except (BadZipFile, ValueError)` clause and propagates. -/
def normalize_zip (env : CodecEnv) (base_name : String) (zip_bytes : ByteSeq) :
    Except String (String × ByteSeq × String) :=
  match env.zip_entries zip_bytes with
  | .error _ => .ok ("application/octet-stream", zip_bytes, base_name ++ ".zip")
  | .ok entries =>
    if MAX_FILES < entries.length ∨
        MAX_TOTAL_UNCOMPRESSED < (entries.map (fun e => e.2.length)).sum then
      .ok ("application/octet-stream", zip_bytes, base_name ++ ".zip")
    else
      match entries with
      | [] => .ok ("application/octet-stream", zip_bytes, base_name ++ ".zip")
      | e0 :: rest =>
        let classify := fun (e : String × ByteSeq) => (env.sniff_kind e.2, e.2, e.1)
        let best := pick_best (classify e0) (rest.map classify)
        if best.1 = "html" then
          (to_utf8_with_rewrite env best.2.1 "html").map
            (fun p => ("text/html; charset=UTF-8", p.1, base_name ++ ".html"))
        else if best.1 = "xml" then
          (to_utf8_with_rewrite env best.2.1 "xml").map
            (fun p => ("application/xml; charset=UTF-8", p.1, base_name ++ ".xml"))
        else
          .ok ("application/octet-stream", best.2.1, base_name)

/-- `normalize_payload` (content_normalizer.py 455-518), without the log
message: sniff the content kind, force kind `zip` when the body starts with
the ZIP signature, and dispatch on the kind. -/
def normalize_payload (env : CodecEnv) (object_key : String) (body : ByteSeq) :
    Except String (String × ByteSeq × String) :=
  let base := env.base_name object_key
  let kind := env.sniff_kind body
  if ZIP_SIG.isPrefixOf body then
    normalize_zip env base body
  else if kind = "html" then
    (to_utf8_with_rewrite env body "html").map
      (fun p => ("text/html; charset=UTF-8", p.1, base ++ ".html"))
  else if kind = "xml" then
    (to_utf8_with_rewrite env body "xml").map
      (fun p => ("application/xml; charset=UTF-8", p.1, base ++ ".xml"))
  else
    .ok ("application/octet-stream", body, base)

lemma dedup_append_head (l : List String) (x : String) (xs : List String) :
    ∃ t, l.foldl add_if_absent (x :: xs) = x :: t := by
  induction l generalizing xs with
  | nil => exact ⟨xs, rfl⟩
  | cons y l ih =>
    show ∃ t, List.foldl add_if_absent (add_if_absent (x :: xs) y) l = x :: t
    by_cases h : (x :: xs).contains y
    · rw [show add_if_absent (x :: xs) y = x :: xs from if_pos h]
      exact ih xs
    · rw [show add_if_absent (x :: xs) y = x :: (xs ++ [y]) from if_neg h]
      exact ih (xs ++ [y])

lemma cons_head_if (L : List String) (x : String) (t : List String)
    (h : L = x :: t) (e : String) :
    ∃ t2, (if L.contains e = false then L ++ [e] else L) = x :: t2 := by
  subst h
  by_cases hc : (x :: t).contains e = false
  · rw [if_pos hc]; exact ⟨t ++ [e], rfl⟩
  · rw [if_neg hc]; exact ⟨t, rfl⟩

lemma build_head (d : String) (a : Option String) (c : Rat) :
    ∃ t, build_encoding_candidates (some d) a c = d :: t := by
  cases a with
  | none => exact dedup_append_head KOREAN_ENCODING_PRIORITY d []
  | some x =>
    obtain ⟨xs, hxs⟩ : ∃ xs, (if (7 : Rat) / 10 < c ∧ ([d].contains x = false)
        then [d] ++ [x] else [d]) = d :: xs := by
      by_cases hcond : (7 : Rat) / 10 < c ∧ ([d].contains x = false)
      · rw [if_pos hcond]; exact ⟨[x], rfl⟩
      · rw [if_neg hcond]; exact ⟨[], rfl⟩
    show ∃ t, (if (KOREAN_ENCODING_PRIORITY.foldl add_if_absent
          (if (7 : Rat) / 10 < c ∧ ([d].contains x = false) then [d] ++ [x] else [d])).contains
            x = false
        then KOREAN_ENCODING_PRIORITY.foldl add_if_absent
          (if (7 : Rat) / 10 < c ∧ ([d].contains x = false) then [d] ++ [x] else [d]) ++ [x]
        else KOREAN_ENCODING_PRIORITY.foldl add_if_absent
          (if (7 : Rat) / 10 < c ∧ ([d].contains x = false) then [d] ++ [x] else [d])) = d :: t
    rw [hxs]
    obtain ⟨t1, ht1⟩ := dedup_append_head KOREAN_ENCODING_PRIORITY d xs
    exact cons_head_if _ d t1 ht1 x

/-- The fallback chain as the claim states it (with `windows-1252`), for
comparison against the implementation. -/
def spec_fallback_chain : List String :=
  ["utf-8-sig", "utf-8", "cp949", "euc-kr", "windows-1252", "iso-8859-1"]

/-- Modelled from the spec's words: the candidate list the claim describes,
namely the declared encoding followed by `spec_fallback_chain`,
de-duplicated while preserving order. -/
def spec_claimed_candidates (declared : Option String) : List String :=
  spec_fallback_chain.foldl add_if_absent
    (match declared with
      | some d => [d]
      | none => [])

/-- C6 (counterexample): with no declared and no auto-detected encoding the
implementation's candidate list is the five-element chain without
`windows-1252`, not the six-element chain the claim states. -/
theorem encoding_candidates_counterexample :
    build_encoding_candidates none none 0 ≠ spec_claimed_candidates none ∧
    build_encoding_candidates none none 0 =
      ["utf-8-sig", "utf-8", "cp949", "euc-kr", "iso-8859-1"] ∧
    spec_claimed_candidates none =
      ["utf-8-sig", "utf-8", "cp949", "euc-kr", "windows-1252", "iso-8859-1"] := by
  have h1 : build_encoding_candidates none none 0 =
      ["utf-8-sig", "utf-8", "cp949", "euc-kr", "iso-8859-1"] := rfl
  have h2 : spec_claimed_candidates none =
      ["utf-8-sig", "utf-8", "cp949", "euc-kr", "windows-1252", "iso-8859-1"] := rfl
  exact ⟨by rw [h1, h2]; decide, h1, h2⟩

/-- C6 (amended): the candidate list starts with the declared encoding when
one is present; when neither a declared nor an auto-detected encoding exists
it is exactly the fixed chain `utf-8-sig, utf-8, cp949, euc-kr, iso-8859-1`
(`windows-1252` is not among the candidates); the first candidate whose
strict decode succeeds determines the output of `_to_utf8_with_rewrite`, and
only when every candidate fails with a Unicode error is the lossy
`cp949-fallback` replacement decode used. -/
theorem encoding_candidates_amended (env : CodecEnv) (data : ByteSeq) (kind : String) :
    (build_encoding_candidates none none 0 =
      ["utf-8-sig", "utf-8", "cp949", "euc-kr", "iso-8859-1"]) ∧
    (∀ d a c, (build_encoding_candidates (some d) a c).head? = some d) ∧
    (∀ pre enc post utf8,
      (∀ e ∈ pre, env.attempt_strict e data kind = .unicodeError) →
      env.attempt_strict enc data kind = .ok utf8 →
      try_candidates env data kind (pre ++ enc :: post) = .ok (utf8, enc)) ∧
    (∀ cands, (∀ e ∈ cands, env.attempt_strict e data kind = .unicodeError) →
      try_candidates env data kind cands =
        .ok (env.lossy_replace data kind, "cp949-fallback")) := by
  refine ⟨rfl, fun d a c => ?_, fun pre enc post utf8 hpre hok => ?_, fun cands hall => ?_⟩
  · obtain ⟨t, ht⟩ := build_head d a c
    rw [ht]
    rfl
  · induction pre with
    | nil => simp [try_candidates, hok]
    | cons p ps ih =>
      have hp := hpre p (List.mem_cons_self p ps)
      show try_candidates env data kind (p :: (ps ++ enc :: post)) = .ok (utf8, enc)
      rw [show try_candidates env data kind (p :: (ps ++ enc :: post)) =
          try_candidates env data kind (ps ++ enc :: post) by
        simp [try_candidates, hp]]
      exact ih (fun e he => hpre e (List.mem_cons_of_mem p he))
  · induction cands with
    | nil => rfl
    | cons p ps ih =>
      have hp := hall p (List.mem_cons_self p ps)
      rw [show try_candidates env data kind (p :: ps) = try_candidates env data kind ps by
        simp [try_candidates, hp]]
      exact ih (fun e he => hall e (List.mem_cons_of_mem p he))

/-- Environment used to witness `encoding_candidates_amended`: only `utf-8`
decodes strictly, every other encoding fails with a Unicode error. -/
def utf8_only_env : CodecEnv where
  sniff_kind := fun _ => "html"
  detect_declared := fun _ _ => none
  detect_auto := fun _ => (none, 0)
  attempt_strict := fun enc _ _ => if enc = "utf-8" then .ok [104, 105] else .unicodeError
  lossy_replace := fun data _ => data
  zip_entries := fun _ => .error "BadZipFile"
  base_name := fun s => s

/-- Witness for `encoding_candidates_amended` on a concrete environment. -/
theorem encoding_candidates_amended_witness :
    try_candidates utf8_only_env [1, 2] "html" (["utf-8-sig"] ++ "utf-8" :: ["cp949"]) =
      .ok ([104, 105], "utf-8") ∧
    (build_encoding_candidates (some "cp949") none 0).head? = some "cp949" ∧
    try_candidates utf8_only_env [1, 2] "html" ["cp949", "euc-kr"] =
      .ok ([1, 2], "cp949-fallback") := by
  have h := encoding_candidates_amended utf8_only_env [1, 2] "html"
  refine ⟨h.2.2.1 ["utf-8-sig"] "utf-8" ["cp949"] [104, 105] ?_ (by decide),
    h.2.1 "cp949" none 0, h.2.2.2 ["cp949", "euc-kr"] ?_⟩
  · intro e he
    rw [List.mem_singleton] at he
    subst he
    decide
  · intro e he
    rcases List.mem_cons.mp he with h1 | h1
    · subst h1; decide
    · rw [List.mem_singleton] at h1
      subst h1
      decide

/-- C1: `normalize_payload` raises for a non-ZIP html body whose declared
charset names an encoding that Python's codec registry does not know: the
declared name is the first candidate tried, `bytes.decode` raises a
`LookupError`, and the loop's `except (UnicodeDecodeError,
UnicodeEncodeError)` clause does not catch it, so the call propagates the
exception instead of returning a fallback triple. -/
theorem normalize_payload_raises (env : CodecEnv) (object_key : String)
    (body : ByteSeq) (enc : String)
    (hzip : ZIP_SIG.isPrefixOf body = false)
    (hkind : env.sniff_kind body = "html")
    (hdecl : env.detect_declared body "html" = some enc)
    (hattempt : env.attempt_strict enc body "html" = .lookupError) :
    normalize_payload env object_key body = .error ("unknown encoding: " ++ enc) := by
  obtain ⟨t, ht⟩ := build_head enc (env.detect_auto body).1 (env.detect_auto body).2
  simp [normalize_payload, hzip, hkind, to_utf8_with_rewrite, hdecl, ht,
    try_candidates, hattempt, Except.map]

/-- The bytes of the failing input body for `normalize_payload_raises`: the
ASCII text of a minimal html head that declares `charset="foo-bar"`. -/
def foo_bar_body : ByteSeq :=
  [60, 109, 101, 116, 97, 32, 99, 104, 97, 114, 115, 101, 116, 61, 34,
   102, 111, 111, 45, 98, 97, 114, 34, 62]

/-- The CPython runtime facts at `foo_bar_body`: `sniff_kind` reports `html`
(the body matches `_META_ANY_RE`), the declared charset extracted by
BeautifulSoup or the regex fallback is `foo-bar` (unchanged by
`_normalize_encoding_name`), chardet reports `ascii` with high confidence on
the pure-ASCII body, and decoding under the unregistered name `foo-bar`
raises `LookupError` while every registered codec decodes the ASCII body. -/
def cpython_foo_bar_env : CodecEnv where
  sniff_kind := fun _ => "html"
  detect_declared := fun _ _ => some "foo-bar"
  detect_auto := fun _ => (some "ascii", 1)
  attempt_strict := fun enc _ _ => if enc = "foo-bar" then .lookupError else .ok foo_bar_body
  lossy_replace := fun data _ => data
  zip_entries := fun _ => .error "BadZipFile"
  base_name := fun s => s

/-- Witness for `normalize_payload_raises` at the concrete failing input. -/
theorem normalize_payload_raises_witness :
    normalize_payload cpython_foo_bar_env "doc" foo_bar_body =
      .error ("unknown encoding: " ++ "foo-bar") :=
  normalize_payload_raises cpython_foo_bar_env "doc" foo_bar_body "foo-bar"
    (by decide) rfl rfl (by decide)

/-- `MinioClient.object_exists` (src/producer/services/storage_client.py
52-70): `stat_object` requests the metadata of the object with exactly the
given name; it succeeds iff an object with that literal name exists and
fails with `NoSuchKey` otherwise (S3 object keys are opaque strings and
`stat_object` performs no wildcard expansion).  The bucket is modelled as
the list of the object names it contains. -/
def object_exists (bucket : List String) (object_name : String) : Bool :=
  bucket.contains object_name

/-- Modelled from the spec: the existence check the spec describes, where a
trailing `*` means "any object whose name starts with the text before the
`*`". -/
def spec_object_exists (bucket : List String) (object_name : String) : Bool :=
  if object_name.toList.getLast? = some (Char.ofNat 42) then
    bucket.any (fun o => object_name.toList.dropLast.isPrefixOf o.toList)
  else
    bucket.contains object_name

/-- C2: the dedup probe of `process_document` (main.py 191 passes
`f"{doc.rcept_dt}/{doc.rcept_no}*"`) treats the `*` literally: with
`20241125/20241125000001.html` stored, the probe for
`20241125/20241125000001*` returns `false`, although the spec's wildcard
semantics requires `true`; on an empty bucket both return `false`. -/
theorem object_exists_ignores_wildcard :
    object_exists ["20241125/20241125000001.html"] "20241125/20241125000001*" = false ∧
    spec_object_exists ["20241125/20241125000001.html"] "20241125/20241125000001*" = true ∧
    object_exists [] "20241125/20241125000001*" = false ∧
    spec_object_exists [] "20241125/20241125000001*" = false := by
  refine ⟨by decide, by decide, by decide, by decide⟩

namespace DartApiStatus

/-- `DartApiStatus` constants (src/producer/services/dart_api_client.py
11-29). -/
def SUCCESS : String := "000"

def INVALID_KEY : String := "010"

def DISABLED_KEY : String := "011"

def NO_DATA : String := "013"

def RATE_LIMIT_EXCEEDED : String := "020"

def SYSTEM_MAINTENANCE : String := "800"

def KEY_EXPIRED : String := "901"

/-- `DartApiStatus.CRITICAL_CODES` (dart_api_client.py 38): the repository's
own classification of the key errors that require stopping the service. -/
def CRITICAL_CODES : List String := [INVALID_KEY, DISABLED_KEY, KEY_EXPIRED]

end DartApiStatus

/-- The branch the page loop of `polling_loop` takes on a list-API response
status. -/
inductive PollAction where
  | processPage
  | stopNoData
  | rateLimitWait
  | maintenanceWait
  | criticalKeyWait
  | unclassifiedError
deriving DecidableEq

/-- The status dispatch of `polling_loop` (main.py 337-377): `000` processes
the page, `013` stops the page loop, `020` waits an hour, `800` waits five
minutes, a status in the literal tuple `(INVALID_KEY, DISABLED_KEY)` logs at
critical severity and waits a full polling interval before breaking, and
anything else logs an unclassified error and breaks immediately without
waiting. -/
def classify_list_status (status : String) : PollAction :=
  if status = DartApiStatus.SUCCESS then .processPage
  else if status = DartApiStatus.NO_DATA then .stopNoData
  else if status = DartApiStatus.RATE_LIMIT_EXCEEDED then .rateLimitWait
  else if status = DartApiStatus.SYSTEM_MAINTENANCE then .maintenanceWait
  else if [DartApiStatus.INVALID_KEY, DartApiStatus.DISABLED_KEY].contains status then
    .criticalKeyWait
  else .unclassifiedError

/-- C8: the statuses `010` and `011` take the critical branch (critical log
plus a full-interval wait), but `901` — listed in the repository's own
`DartApiStatus.CRITICAL_CODES` — falls through to the unclassified-error
branch, which logs at error severity and aborts the page loop without
waiting. -/
theorem expired_key_not_critical :
    classify_list_status DartApiStatus.INVALID_KEY = .criticalKeyWait ∧
    classify_list_status DartApiStatus.DISABLED_KEY = .criticalKeyWait ∧
    DartApiStatus.CRITICAL_CODES.contains DartApiStatus.KEY_EXPIRED = true ∧
    classify_list_status DartApiStatus.KEY_EXPIRED = .unclassifiedError := by
  refine ⟨by decide, by decide, by decide, by decide⟩

/-- `Disclosure` (src/producer/models/disclosure.py): all DART list fields
are strings; `from_dict` normalizes unset optional fields (empty string or
missing) to `None`, modelled as `Option String`. -/
structure Disclosure where
  corp_code : String
  corp_name : String
  stock_code : Option String
  corp_cls : String
  report_nm : String
  rcept_no : String
  flr_nm : Option String
  rcept_dt : String
  rm : Option String
  url : Option String

/-- A JSON value as it appears in the Celery task payload. -/
inductive JsonValue where
  | str (s : String)
  | num (n : Nat)
  | null
deriving DecidableEq

/-- How an `Optional[str]` dataclass field serializes into the JSON payload:
`None` becomes JSON `null`. -/
def opt_json : Option String → JsonValue
  | some s => .str s
  | none => .null

/-- The Celery task payload built by `process_document` (main.py 233-247):
a dict literal that always contains all thirteen keys. -/
def build_message (doc : Disclosure) (polling_date object_key content_type : String)
    (file_size : Nat) : List (String × JsonValue) :=
  [("corp_code", .str doc.corp_code),
   ("corp_name", .str doc.corp_name),
   ("stock_code", opt_json doc.stock_code),
   ("corp_cls", .str doc.corp_cls),
   ("report_nm", .str doc.report_nm),
   ("rcept_no", .str doc.rcept_no),
   ("flr_nm", opt_json doc.flr_nm),
   ("rcept_dt", .str doc.rcept_dt),
   ("rm", opt_json doc.rm),
   ("object_key", .str object_key),
   ("content_type", .str content_type),
   ("file_size", .num file_size),
   ("polling_date", .str polling_date)]

/-- A disclosure by an unlisted company: `stock_code`, `flr_nm` and `rm` are
all unset. -/
def unlisted_doc : Disclosure :=
  ⟨"00000001", "SomeCorp", none, "E", "Some Report", "20241125000001", none,
   "20241125", none, some "https://dart.fss.or.kr/dsaf001/main.do?rcpNo=20241125000001"⟩

/-- C9 (counterexample): for a disclosure whose optional fields are unset,
the enqueued payload still contains the keys `stock_code`, `flr_nm` and `rm`,
each carrying a JSON `null` — the keys are not omitted. -/
theorem message_null_counterexample :
    (build_message unlisted_doc "20241125" "20241125/20241125000001.html"
      "text/html; charset=UTF-8" 1234).lookup "stock_code" = some JsonValue.null ∧
    (build_message unlisted_doc "20241125" "20241125/20241125000001.html"
      "text/html; charset=UTF-8" 1234).lookup "flr_nm" = some JsonValue.null ∧
    (build_message unlisted_doc "20241125" "20241125/20241125000001.html"
      "text/html; charset=UTF-8" 1234).lookup "rm" = some JsonValue.null := by
  refine ⟨rfl, rfl, rfl⟩

/-- C9 (amended): the payload always contains all thirteen keys in the fixed
dict order; each optional field is present and carries its value, with JSON
`null` when the field is unset rather than being omitted. -/
theorem message_fields_always_present (doc : Disclosure)
    (pd okey ct : String) (fs : Nat) :
    ((build_message doc pd okey ct fs).map Prod.fst =
      ["corp_code", "corp_name", "stock_code", "corp_cls", "report_nm", "rcept_no",
       "flr_nm", "rcept_dt", "rm", "object_key", "content_type", "file_size",
       "polling_date"]) ∧
    ((build_message doc pd okey ct fs).lookup "stock_code" = some (opt_json doc.stock_code)) ∧
    ((build_message doc pd okey ct fs).lookup "flr_nm" = some (opt_json doc.flr_nm)) ∧
    ((build_message doc pd okey ct fs).lookup "rm" = some (opt_json doc.rm)) ∧
    (doc.stock_code = none →
      (build_message doc pd okey ct fs).lookup "stock_code" = some JsonValue.null) := by
  refine ⟨rfl, rfl, rfl, rfl, fun h => ?_⟩
  rw [show (build_message doc pd okey ct fs).lookup "stock_code" =
    some (opt_json doc.stock_code) from rfl, h]
  rfl

/-- Witness for `message_fields_always_present` at a concrete disclosure. -/
theorem message_fields_always_present_witness :
    (build_message unlisted_doc "20241125" "20241125/20241125000001.html"
      "text/html; charset=UTF-8" 4321).lookup "rcept_no" =
        some (JsonValue.str "20241125000001") ∧
    (build_message unlisted_doc "20241125" "20241125/20241125000001.html"
      "text/html; charset=UTF-8" 4321).map Prod.fst =
      ["corp_code", "corp_name", "stock_code", "corp_cls", "report_nm", "rcept_no",
       "flr_nm", "rcept_dt", "rm", "object_key", "content_type", "file_size",
       "polling_date"] := by
  have h := message_fields_always_present unlisted_doc "20241125"
    "20241125/20241125000001.html" "text/html; charset=UTF-8" 4321
  exact ⟨rfl, h.1⟩

/-- Result of one Python call: either a value or a raised exception rendered
by `str(e)`. -/
inductive PyResult (α : Type) where
  | ok (val : α)
  | exn (msg : String)

/-- The effectful sub-operations of one `process_document` run, supplied as
an environment: the `store.object_exists` dedup probe, the result of
`api.fetch_document_content` (`.exn` for a raised `DartApiError` or any
other exception), the result of `normalize_payload` (`.exn` for an escaping
exception such as the `LookupError` of `normalize_payload_raises`), the
Boolean result of `store.upload_document` (its `S3Error`s are caught inside
and reported as `false`), and the result of `celery_app.send_task`. -/
structure DocEnv where
  object_in_store : Bool
  fetch_result : PyResult (Option ByteSeq)
  normalize_result : PyResult (String × ByteSeq × String)
  upload_ok : Bool
  enqueue_result : PyResult Unit

/-- The observable outcome of one `process_document` run: the new state, the
`FailureRecorder.record` calls as `(rcept_no, reason)` pairs in order, the
successfully enqueued Celery payloads, and whether `state.record_failure`
was invoked. -/
structure DocOutcome where
  state : ProcessingState
  failures : List (String × String)
  sent : List (List (String × JsonValue))
  record_failure_called : Bool

/-- `process_document` (main.py 163-280): skip identifiers that are already
processed or already stored; inside the `try` block, a falsy download raises
`ValueError`, a failed upload raises `IOError`, and any exception lands in
the `except` handler, which records a failure and calls `record_failure`;
the enqueue step has its own inner `try/except` that only records a failure,
after which `mark_processed` runs unconditionally.  A payload smaller than
200 bytes is marked skipped and recorded, without touching the failure
counters. -/
def process_document (env : DocEnv) (doc : Disclosure) (polling_date : String)
    (state : ProcessingState) (max_fail : Nat) : DocOutcome :=
  if is_processed state doc.rcept_no then
    ⟨state, [], [], false⟩
  else if env.object_in_store then
    ⟨mark_skipped state doc.rcept_no, [], [], false⟩
  else
    let fail_path := fun (reason : String) =>
      DocOutcome.mk (record_failure state doc.rcept_no max_fail).1
        [(doc.rcept_no, reason)] [] true
    match env.fetch_result with
    | .exn msg => fail_path msg
    | .ok zip_bytes =>
      if zip_bytes.getD [] = [] then
        fail_path "Failed to download document from DART API."
      else
        match env.normalize_result with
        | .exn msg => fail_path msg
        | .ok (content_type, normalized_body, final_filename) =>
          let file_size := normalized_body.length
          if file_size < 200 then
            ⟨mark_skipped state doc.rcept_no,
             [(doc.rcept_no,
               "Processed file too small (" ++ toString file_size ++ " bytes).")],
             [], false⟩
          else
            let object_name := doc.rcept_dt ++ "/" ++ final_filename
            if env.upload_ok = false then
              fail_path ("Failed to upload " ++ object_name ++ " to storage.")
            else
              let message := build_message doc polling_date object_name
                content_type file_size
              match env.enqueue_result with
              | .exn msg =>
                ⟨mark_processed state doc.rcept_no,
                 [(doc.rcept_no, "Failed to enqueue Celery task: " ++ msg)], [], false⟩
              | .ok _ =>
                ⟨mark_processed state doc.rcept_no, [], [message], false⟩

/-- C5: when the fetched document normalizes to fewer than 200 bytes,
`process_document` marks the identifier skipped, records exactly one failure
record with the "too small" reason, enqueues nothing and never calls
`record_failure`: the failure-counter map, the `permanently_failed` set and
the error counter are unchanged. -/
theorem small_payload_skipped (env : DocEnv) (doc : Disclosure) (pd : String)
    (state : ProcessingState) (mf : Nat) (zb : ByteSeq)
    (ct : String) (body : ByteSeq) (fn : String)
    (h1 : is_processed state doc.rcept_no = false)
    (h2 : env.object_in_store = false)
    (h3 : env.fetch_result = .ok (some zb))
    (h4 : zb ≠ [])
    (h5 : env.normalize_result = .ok (ct, body, fn))
    (h6 : body.length < 200) :
    process_document env doc pd state mf =
      ⟨mark_skipped state doc.rcept_no,
       [(doc.rcept_no, "Processed file too small (" ++ toString body.length ++ " bytes).")],
       [], false⟩ ∧
    (process_document env doc pd state mf).state.failed_attempts = state.failed_attempts ∧
    (process_document env doc pd state mf).state.permanently_failed =
      state.permanently_failed ∧
    (process_document env doc pd state mf).state.error_count = state.error_count ∧
    (process_document env doc pd state mf).record_failure_called = false := by
  have hmain : process_document env doc pd state mf =
      ⟨mark_skipped state doc.rcept_no,
       [(doc.rcept_no, "Processed file too small (" ++ toString body.length ++ " bytes).")],
       [], false⟩ := by
    simp [process_document, h1, h2, h3, h4, h5, h6]
  refine ⟨hmain, ?_, ?_, ?_, ?_⟩ <;> rw [hmain] <;> rfl

/-- The concrete disclosure used by the `process_document` witnesses. -/
def sample_doc : Disclosure :=
  ⟨"00126380", "SampleCorp", some "005930", "Y", "Annual Report", "20241125000001",
   some "Filer", "20241125", none, none⟩

/-- Environment for the `small_payload_skipped` witness: dedup probe misses,
download succeeds, the normalized body is 4 bytes long. -/
def small_env : DocEnv :=
  ⟨false, .ok (some [80, 75]),
   .ok ("text/html; charset=UTF-8", [60, 104, 105, 62], "20241125000001.html"),
   true, .ok ()⟩

/-- Witness for `small_payload_skipped` on a fresh state. -/
theorem small_payload_skipped_witness :
    process_document small_env sample_doc "20241125" initialState 3 =
      ⟨mark_skipped initialState "20241125000001",
       [("20241125000001", "Processed file too small (4 bytes).")], [], false⟩ ∧
    (process_document small_env sample_doc "20241125" initialState 3).state.error_count = 0 := by
  have h := small_payload_skipped small_env sample_doc "20241125" initialState 3
    [80, 75] "text/html; charset=UTF-8" [60, 104, 105, 62] "20241125000001.html"
    rfl rfl rfl (by decide) rfl (by decide)
  exact ⟨h.1, h.2.2.2.1⟩

/-- C10: when the upload succeeds but enqueueing the Celery message raises,
`process_document` still calls `mark_processed`: the identifier joins the
`processed` set, the success counter is incremented, any pending failure
counter for it is cleared, `record_failure` is never invoked (the error
counter and the `permanently_failed` set are unchanged), only a failure
record captures the gap, and every later `process_document` run on the same
identifier returns immediately without doing anything. -/
theorem enqueue_failure_still_processed (env : DocEnv) (doc : Disclosure) (pd : String)
    (state : ProcessingState) (mf : Nat) (zb : ByteSeq)
    (ct : String) (body : ByteSeq) (fn : String) (msg : String)
    (h1 : is_processed state doc.rcept_no = false)
    (h2 : env.object_in_store = false)
    (h3 : env.fetch_result = .ok (some zb))
    (h4 : zb ≠ [])
    (h5 : env.normalize_result = .ok (ct, body, fn))
    (h6 : ¬ body.length < 200)
    (h7 : env.upload_ok = true)
    (h8 : env.enqueue_result = .exn msg) :
    process_document env doc pd state mf =
      ⟨mark_processed state doc.rcept_no,
       [(doc.rcept_no, "Failed to enqueue Celery task: " ++ msg)], [], false⟩ ∧
    (process_document env doc pd state mf).state.processed doc.rcept_no = true ∧
    is_processed (process_document env doc pd state mf).state doc.rcept_no = true ∧
    (process_document env doc pd state mf).state.success_count = state.success_count + 1 ∧
    (process_document env doc pd state mf).state.failed_attempts doc.rcept_no = none ∧
    (process_document env doc pd state mf).state.error_count = state.error_count ∧
    (process_document env doc pd state mf).state.permanently_failed =
      state.permanently_failed ∧
    (process_document env doc pd state mf).record_failure_called = false ∧
    (∀ env2 pd2 mf2,
      process_document env2 doc pd2 (process_document env doc pd state mf).state mf2 =
        ⟨(process_document env doc pd state mf).state, [], [], false⟩) := by
  have hmain : process_document env doc pd state mf =
      ⟨mark_processed state doc.rcept_no,
       [(doc.rcept_no, "Failed to enqueue Celery task: " ++ msg)], [], false⟩ := by
    simp [process_document, h1, h2, h3, h4, h5, h6, h7, h8]
  have hproc : (process_document env doc pd state mf).state.processed doc.rcept_no = true := by
    rw [hmain]
    simp [mark_processed]
  refine ⟨hmain, hproc, by simp [is_processed, hproc], ?_, ?_, ?_, ?_, ?_, ?_⟩
  · rw [hmain]; rfl
  · rw [hmain]; simp [mark_processed]
  · rw [hmain]; rfl
  · rw [hmain]; rfl
  · rw [hmain]
  · intro env2 pd2 mf2
    set s2 := (process_document env doc pd state mf).state with hs2
    have hip : is_processed s2 doc.rcept_no = true := by
      simp [is_processed, hproc]
    show process_document env2 doc pd2 s2 mf2 = ⟨s2, [], [], false⟩
    simp [process_document, hip]

/-- Environment for the `enqueue_failure_still_processed` witness: everything
succeeds except the Celery enqueue, which raises. -/
def enqueue_fail_env : DocEnv :=
  ⟨false, .ok (some [80, 75]),
   .ok ("text/html; charset=UTF-8", List.replicate 200 32, "20241125000001.html"),
   true, .exn "broker unavailable"⟩

set_option maxRecDepth 8192 in
/-- Witness for `enqueue_failure_still_processed` on a fresh state. -/
theorem enqueue_failure_still_processed_witness :
    (process_document enqueue_fail_env sample_doc "20241125" initialState 3).state.processed
      "20241125000001" = true ∧
    (process_document enqueue_fail_env sample_doc "20241125" initialState 3).failures =
      [("20241125000001", "Failed to enqueue Celery task: broker unavailable")] ∧
    (process_document enqueue_fail_env sample_doc "20241125" initialState 3).state.error_count
      = 0 := by
  have h := enqueue_failure_still_processed enqueue_fail_env sample_doc "20241125"
    initialState 3 [80, 75] "text/html; charset=UTF-8" (List.replicate 200 32)
    "20241125000001.html" "broker unavailable"
    rfl rfl rfl (by decide) rfl (by rw [List.length_replicate]; omega) rfl rfl
  refine ⟨h.2.1, ?_, ?_⟩ <;> rw [h.1] <;> rfl

end DartIngestion
